import Mathlib

/-!
Shallow embedding of the email verification engine in `src/app.py`
(class `EmailVerifier` and the `/api/verify` batch loop).

Python strings are modelled as `List Char`; machine-level network effects
(DNS answers, SMTP dialogues) are supplied by an explicit environment
record `Env`, one field per network interaction the pipeline performs.
Fallible code paths (Python exceptions escaping `verify_email`) are
modelled with `Except String`.
-/

/-- Python `str` is modelled as a list of characters. -/
abbrev Str := List Char

/-- Python `str.split(sep)` for a one-character separator. -/
def splitOnChar (sep : Char) : Str → List Str
  | [] => [[]]
  | c :: rest =>
    match splitOnChar sep rest with
    | h :: t => if c == sep then [] :: h :: t else (c :: h) :: t
    | [] => if c == sep then [[], []] else [[c]]

/-- Python `str.rstrip(ch)`: drop every trailing occurrence of `ch`. -/
def rstripChar (ch : Char) (s : Str) : Str :=
  (s.reverse.dropWhile (fun c => c == ch)).reverse

/-- The characters Python `str.strip()` removes: the whitespace set of
`str.isspace`, namely code points 9 to 13, 28 to 31, 32, 133, 160, 5760,
8192 to 8202, 8232, 8233, 8239, 8287 and 12288. -/
def isPySpace (c : Char) : Bool :=
  [9, 10, 11, 12, 13, 28, 29, 30, 31, 32, 133, 160, 5760,
   8192, 8193, 8194, 8195, 8196, 8197, 8198, 8199, 8200, 8201, 8202,
   8232, 8233, 8239, 8287, 12288].contains c.toNat

/-- Python `str.strip()` with no argument. -/
def pyStrip (s : Str) : Str :=
  ((s.dropWhile isPySpace).reverse.dropWhile isPySpace).reverse

/-- ASCII lowercasing, Python `str.lower()` on the ASCII range used here. -/
def toLowerAscii (s : Str) : Str :=
  s.map fun c => if 'A' ≤ c ∧ c ≤ 'Z' then Char.ofNat (c.toNat + 32) else c

/-- Membership in the regex class a-zA-Z0-9. -/
def isAlnumCh (c : Char) : Bool :=
  if ('a' ≤ c ∧ c ≤ 'z') ∨ ('A' ≤ c ∧ c ≤ 'Z') ∨ ('0' ≤ c ∧ c ≤ '9') then true else false

/-- Code points of the special characters the local-part character class of the
regex in `validate_syntax` permits besides a-zA-Z0-9: dot, bang, hash, dollar,
percent, ampersand, apostrophe, star, plus, slash, equals, question mark,
caret, underscore, backquote, left curly bracket, vertical bar, right curly
bracket, tilde, hyphen (line 38 of `src/app.py`). -/
def localSpecialCodes : List Nat :=
  [46, 33, 35, 36, 37, 38, 39, 42, 43, 47, 61, 63, 94, 95, 96, 123, 124, 125, 126, 45]

/-- One character of the regex's local-part class. -/
def isLocalCh (c : Char) : Bool :=
  isAlnumCh c || localSpecialCodes.contains c.toNat

/-- One domain label of the regex: alnum, optionally followed by up to 61
alnum-or-hyphen characters and a final alnum; so 1 to 63 characters, first and
last alphanumeric, interior alphanumeric or hyphen. -/
def labelOk (l : Str) : Bool :=
  if l = [] then false
  else if 63 < l.length then false
  else
    (match l.head? with | some c => isAlnumCh c | none => false)
    && (match l.getLast? with | some c => isAlnumCh c | none => false)
    && l.all (fun c => isAlnumCh c || c == '-')

/-- The anchored regex body of `validate_syntax` (line 38): one or more
local-part characters, an at sign, then dot-separated domain labels.
Since no character class of the regex contains the at sign, a match exists
exactly when the string splits at a unique at sign into a nonempty local part
and a valid label sequence. -/
def matchCore (e : Str) : Bool :=
  match splitOnChar '@' e with
  | [lp, dom] => !lp.isEmpty && lp.all isLocalCh && (splitOnChar '.' dom).all labelOk
  | _ => false

/-- `EmailVerifier.validate_syntax` (lines 37-39). Python's re dollar anchor
also matches just before a single trailing newline, so a string ending in one
newline is accepted when the part before it matches. -/
def validate_syntax (e : Str) : Bool :=
  matchCore e
  || (match e.getLast? with
      | some c => c == '\n' && matchCore e.dropLast
      | none => false)

/-- `self.disposable_domains` (lines 20-25). -/
def disposable_domains : List Str :=
  ["10minutemail.com".toList, "tempmail.com".toList, "guerrillamail.com".toList,
   "mailinator.com".toList, "throwaway.email".toList, "temp-mail.org".toList,
   "fakeinbox.com".toList, "maildrop.cc".toList, "getnada.com".toList, "trashmail.com".toList,
   "yopmail.com".toList, "sharklasers.com".toList, "temp-mail.io".toList, "mintemail.com".toList]

/-- `self.role_based_prefixes` (lines 27-31). -/
def role_based_prefixes : List Str :=
  ["admin".toList, "info".toList, "support".toList, "sales".toList, "contact".toList,
   "help".toList, "service".toList, "noreply".toList, "no-reply".toList, "webmaster".toList,
   "postmaster".toList, "hostmaster".toList, "abuse".toList, "privacy".toList,
   "security".toList, "billing".toList]

/-- `EmailVerifier.is_disposable` (lines 41-42). -/
def is_disposable (domain : Str) : Bool :=
  (disposable_domains.map toLowerAscii).contains (toLowerAscii domain)

/-- `EmailVerifier.is_role_based` (lines 44-47): the lowercased local part
equals a role name or starts with the role name followed by a dot. -/
def is_role_based (email : Str) : Bool :=
  let local_part := toLowerAscii ((splitOnChar '@' email).headD [])
  role_based_prefixes.any fun role =>
    local_part == role || (role ++ ['.']).isPrefixOf local_part

/-- Outcome of the A-record lookup `self.resolver.resolve(domain, 'A')`:
either an answer or one of the exceptions caught in `check_dns`. -/
inductive DnsExc where
  | nxdomain
  | noAnswer
  | timeout
  | otherErr (s : Str)
deriving DecidableEq

/-- The dictionary `check_dns` returns. -/
structure DnsResult where
  valid : Bool
  error : Option Str
deriving DecidableEq

/-- `EmailVerifier.check_dns` (lines 49-60), as a function of the resolver
outcome. -/
def check_dns (r : Except DnsExc Unit) : DnsResult :=
  match r with
  | .ok _ => ⟨true, none⟩
  | .error .nxdomain => ⟨false, some "Domain does not exist".toList⟩
  | .error .noAnswer => ⟨false, some "Domain has no DNS records".toList⟩
  | .error .timeout => ⟨false, some "DNS lookup timeout".toList⟩
  | .error (.otherErr s) => ⟨false, some ("DNS error: ".toList ++ s)⟩

/-- One MX answer record: stated preference and exchange host name as the
resolver renders it (possibly with a trailing root-label dot). The records
arrive in the order of the DNS response; `dns.resolver` does not reorder
them by preference. -/
structure MxRecord where
  preference : Nat
  exchange : Str
deriving DecidableEq

/-- Outcome of the MX lookup: an answer list in response order, or one of the
exceptions caught in `check_mx_records`. -/
inductive MxExc where
  | nxdomain
  | noAnswer
  | timeout
  | otherErr (s : Str)
deriving DecidableEq

/-- The dictionary `check_mx_records` returns. -/
structure MxResult where
  has_mx : Bool
  mx_hosts : List Str
  mx_count : Nat
  error : Option Str
deriving DecidableEq

/-- `EmailVerifier.check_mx_records` (lines 62-83): on success the hosts are
the answer records in response order with trailing dots stripped. -/
def check_mx_records (r : Except MxExc (List MxRecord)) : MxResult :=
  match r with
  | .ok recs =>
    let mx_hosts := recs.map fun rec => rstripChar '.' rec.exchange
    ⟨true, mx_hosts, mx_hosts.length, none⟩
  | .error .nxdomain => ⟨false, [], 0, some "Domain does not exist".toList⟩
  | .error .noAnswer => ⟨false, [], 0, some "No MX records found".toList⟩
  | .error .timeout => ⟨false, [], 0, some "MX lookup timeout".toList⟩
  | .error (.otherErr s) => ⟨false, [], 0, some ("MX lookup error: ".toList ++ s)⟩

/-- Exceptions the SMTP dialogue of `verify_smtp` can raise, one constructor
per except clause (lines 137-151). -/
inductive SmtpExc where
  | serverDisconnected
  | connectErr (s : Str)
  | socketTimeout
  | smtpError (s : Str)
  | otherErr (s : Str)
deriving DecidableEq

/-- Outcome of the connect/HELO/MAIL/RCPT dialogue: the RCPT reply code and
message text, or the exception that interrupted the dialogue. -/
abbrev SmtpDialogue := Except SmtpExc (Int × Str)

/-- The dictionary `verify_smtp` returns; the `exists_` field models the
dictionary entry named exists, Python's tri-state True / False / None as
`some true` / `some false` / `none` (the unprimed name is a Lean keyword). -/
structure SmtpResult where
  exists_ : Option Bool
  code : Option Int
  message : Option Str
  error : Option Str
deriving DecidableEq

/-- `EmailVerifier.verify_smtp` (lines 85-151) as a function of the dialogue
outcome. The Python membership tests on the literal code lists are written as
the corresponding disjunctions of equalities. -/
def verify_smtp (d : SmtpDialogue) : SmtpResult :=
  match d with
  | .ok (code, msg) =>
    if code = 250 then ⟨some true, some code, some msg, none⟩
    else if code = 251 then ⟨some true, some code, some msg, none⟩
    else if code = 550 ∨ code = 551 ∨ code = 553 ∨ code = 554 then
      ⟨some false, some code, some msg, some "Mailbox does not exist".toList⟩
    else if code = 450 ∨ code = 451 ∨ code = 452 ∨ code = 421 then
      ⟨none, some code, some msg, some "Temporary failure (greylisting or rate limit)".toList⟩
    else
      ⟨none, some code, some msg, some ("Uncertain response code: ".toList ++ (Int.repr code).toList)⟩
  | .error .serverDisconnected =>
    ⟨none, none, none, some "Server disconnected during verification".toList⟩
  | .error (.connectErr s) =>
    ⟨none, none, none, some ("Could not connect to mail server: ".toList ++ s)⟩
  | .error .socketTimeout =>
    ⟨none, none, none, some "Connection timeout".toList⟩
  | .error (.smtpError s) =>
    ⟨none, none, none, some ("SMTP error: ".toList ++ s)⟩
  | .error (.otherErr s) =>
    ⟨none, none, none, some ("Unexpected error: ".toList ++ s)⟩

/-- `EmailVerifier.check_catch_all` (lines 153-165) as a function of the
synthetic-address probe: the `Except.error` case models an escape of the
bare except clause around the probe call, and the `ok` case carries the
probe dialogue. The synthetic address itself (timestamp plus domain hash)
does not influence the returned boolean. -/
def check_catch_all (p : Except Unit SmtpDialogue) : Bool :=
  match p with
  | .ok d => (verify_smtp d).exists_ == some true
  | .error _ => false

/-- The `checks` dictionary of a result; `none` means the key was never set. -/
structure Checks where
  syntaxOk : Option Bool := none
  disposable : Option Bool := none
  roleBased : Option Bool := none
  dns : Option Bool := none
  hasMX : Option Bool := none
  smtp : Option (Option Bool) := none
  smtpCode : Option (Option Int) := none
  smtpMessage : Option Str := none
  catchAll : Option Bool := none
deriving DecidableEq

/-- The result dictionary `verify_email` builds (lines 168-174). -/
structure VerificationResult where
  email : Str
  status : Str
  score : Int
  checks : Checks
  issues : List Str
deriving DecidableEq

/-- One network interaction of a pipeline run, recorded in execution order. -/
inductive NetEvent where
  | dnsQuery
  | mxQuery
  | smtpProbe (host : Str) (rcptTo : Str)
  | catchAllProbe (host : Str)
deriving DecidableEq

/-- A completed `verify_email` run: the returned dictionary, the network
interactions it performed, and whether it ended in one of the early
hard-failure returns. -/
structure Outcome where
  result : VerificationResult
  events : List NetEvent
  hardFailure : Bool
deriving DecidableEq

/-- The network environment of one `verify_email` call: the outcome each
network interaction would produce if performed. -/
structure Env where
  dnsLookup : Except DnsExc Unit
  mxLookup : Except MxExc (List MxRecord)
  realDialogue : SmtpDialogue
  catchAllDialogue : Except Unit SmtpDialogue

/-- The final status thresholds of `verify_email` (lines 270-276). -/
def statusFromScore (s : Int) : Str :=
  if s ≥ 75 then "valid".toList
  else if s ≥ 45 then "risky".toList
  else "invalid".toList

/-- `EmailVerifier.verify_email` (lines 167-278). Early returns set
`hardFailure`; the two statements that can raise in Python are modelled as
`Except.error`: the subscript `mx_hosts[0]` on an empty list (line 228) and
the slice `smtp_result.get('message', '')[:100]` when the message is None
(line 233, a TypeError whenever the SMTP dialogue raised). -/
def verify_email (env : Env) (email : Str) : Except String Outcome :=
  if validate_syntax email then
    let score1 : Int := 20
    let domain : Str := (splitOnChar '@' email).getD 1 []
    let disp := is_disposable domain
    let issues2 : List Str := if disp then ["Disposable email service".toList] else []
    let score2 : Int := if disp then score1 - 30 else score1 + 15
    let role := is_role_based email
    let issues3 := issues2 ++ (if role then ["Role-based email (not personal)".toList] else [])
    let score3 : Int := if role then score2 - 10 else score2 + 10
    let dns_result := check_dns env.dnsLookup
    let checks4 : Checks :=
      { syntaxOk := some true
        disposable := some disp
        roleBased := some role
        dns := some dns_result.valid }
    if dns_result.valid then
      let score4 := score3 + 25
      let mx_result := check_mx_records env.mxLookup
      let checks5 := { checks4 with hasMX := some mx_result.has_mx }
      if mx_result.has_mx then
        let score5 := score4 + 25
        match mx_result.mx_hosts with
        | [] => Except.error "IndexError: mx_hosts is empty"
        | mx_host :: _ =>
          let smtp_result := verify_smtp env.realDialogue
          match smtp_result.message with
          | none => Except.error "TypeError: cannot slice None smtp message"
          | some msg =>
            let checks7 :=
              { checks5 with
                smtp := some smtp_result.exists_
                smtpCode := some smtp_result.code
                smtpMessage := some (msg.take 100) }
            let is_catch_all := check_catch_all env.catchAllDialogue
            let checks8 := { checks7 with catchAll := some is_catch_all }
            let events := [NetEvent.dnsQuery, NetEvent.mxQuery,
              NetEvent.smtpProbe mx_host email, NetEvent.catchAllProbe mx_host]
            let common_catch_all := ["gmail.com".toList, "yahoo.com".toList,
              "outlook.com".toList, "hotmail.com".toList, "aol.com".toList]
            let finalize : Int → List Str → Except String Outcome := fun sc iss =>
              let iss2 := iss ++
                (if common_catch_all.contains (toLowerAscii domain) ∧ is_catch_all then
                  [domain ++ " uses catch-all - verification less reliable".toList] else [])
              Except.ok
                { result :=
                    { email := email
                      status := statusFromScore sc
                      score := sc
                      checks := checks8
                      issues := iss2 }
                  events := events
                  hardFailure := false }
            if is_catch_all then
              let issues4 := issues3 ++ ["Catch-all domain - cannot verify individual mailbox".toList]
              let score6 := score5 - 20
              match smtp_result.exists_ with
              | some true => finalize (score6 + 10) issues4
              | some false =>
                Except.ok
                  { result :=
                      { email := email
                        status := "invalid".toList
                        score := score6
                        checks := checks8
                        issues := issues4 ++ ["Mailbox rejected even on catch-all domain".toList] }
                    events := events
                    hardFailure := true }
              | none =>
                finalize (score6 + 5)
                  (issues4 ++ [smtp_result.error.getD "Could not verify".toList])
            else
              match smtp_result.exists_ with
              | some true => finalize (score5 + 30) issues3
              | some false =>
                Except.ok
                  { result :=
                      { email := email
                        status := "invalid".toList
                        score := score5
                        checks := checks8
                        issues := issues3 ++ [smtp_result.error.getD []] }
                    events := events
                    hardFailure := true }
              | none => finalize (score5 + 10) (issues3 ++ [smtp_result.error.getD []])
      else
        Except.ok
          { result :=
              { email := email
                status := "invalid".toList
                score := score4
                checks := { checks4 with hasMX := some false }
                issues := issues3 ++
                  [(match (check_mx_records env.mxLookup).error with
                    | some s => if s = [] then "No mail servers configured".toList else s
                    | none => "No mail servers configured".toList)] }
            events := [NetEvent.dnsQuery, NetEvent.mxQuery]
            hardFailure := true }
    else
      Except.ok
        { result :=
            { email := email
              status := "invalid".toList
              score := score3
              checks := checks4
              issues := issues3 ++ [dns_result.error.getD []] }
          events := [NetEvent.dnsQuery]
          hardFailure := true }
  else
    Except.ok
      { result :=
          { email := email
            status := "invalid".toList
            score := 0
            checks := { syntaxOk := some false }
            issues := ["Invalid email format".toList] }
        events := []
        hardFailure := true }

/-- The batch loop of the `/api/verify` handler `verify_emails`
(lines 296-306): strip each entry, skip entries that strip to the empty
string, verify the rest in order; an exception escaping `verify_email`
aborts the whole loop (the handler then answers 500 with no results). -/
def verify_emails (env : Str → Env) : List Str → Except String (List VerificationResult)
  | [] => .ok []
  | e :: rest =>
    let s := pyStrip e
    if s ≠ [] then
      match verify_email (env s) s with
      | .error err => .error err
      | .ok o =>
        match verify_emails env rest with
        | .error err => .error err
        | .ok rs => .ok (o.result :: rs)
    else verify_emails env rest

/-! ### Definitions supporting the claims -/

/-- A default outcome used only to extract the value of a computed
`Except.ok` in closed statements. -/
def oDflt : Outcome :=
  { result :=
      { email := []
        status := []
        score := 0
        checks := {}
        issues := [] }
    events := []
    hardFailure := true }

/-- The score accumulated by the pipeline before the SMTP / catch-all
scoring block, on a run where syntax, DNS and MX all pass (lines 184-225):
20 for syntax, plus or minus the disposable and role adjustments, plus 25
for DNS and 25 for MX. -/
def preSmtpScore (e : Str) : Int :=
  20 + (if is_disposable ((splitOnChar '@' e).getD 1 []) then -30 else 15)
     + (if is_role_based e then -10 else 10) + 25 + 25

/-- Insertion into a list of MX records ordered by ascending preference. -/
def insertPref (r : MxRecord) : List MxRecord → List MxRecord
  | [] => [r]
  | s :: t => if r.preference ≤ s.preference then r :: s :: t else s :: insertPref r t

/-- Insertion sort of MX records by ascending preference. -/
def sortByPref : List MxRecord → List MxRecord
  | [] => []
  | r :: t => insertPref r (sortByPref t)

/-- Modelled from the spec wording of the MX claim: the host list sorted
ascending by stated preference, trailing dot stripped. -/
def claimedMxHosts (recs : List MxRecord) : List Str :=
  (sortByPref recs).map fun r => rstripChar '.' r.exchange

/-- Modelled from the claim wording for the RCPT classification: the
tri-state existence verdict as a function of the reply code alone. -/
def claimedRcptExists (code : Int) : Option Bool :=
  if code = 250 ∨ code = 251 then some true
  else if code = 550 ∨ code = 551 ∨ code = 553 ∨ code = 554 then some false
  else none

/-- Modelled from the claim wording for the RCPT classification: the error
text as a function of the reply code alone (the exact strings are the ones
the code uses; the claim quotes the mailbox one verbatim and names the
temporary-failure and uncertain-code ones descriptively). -/
def claimedRcptError (code : Int) : Option Str :=
  if code = 250 ∨ code = 251 then none
  else if code = 550 ∨ code = 551 ∨ code = 553 ∨ code = 554 then
    some "Mailbox does not exist".toList
  else if code = 450 ∨ code = 451 ∨ code = 452 ∨ code = 421 then
    some "Temporary failure (greylisting or rate limit)".toList
  else some ("Uncertain response code: ".toList ++ (Int.repr code).toList)

/-- Modelled from the claim wording for the batch contract: exactly one
result per trimmed address, in input order, with any escaping exception
aborting the batch. -/
def perAddress (env : Str → Env) : List Str → Except String (List VerificationResult)
  | [] => .ok []
  | e :: rest => do
    let o ← verify_email (env (pyStrip e)) (pyStrip e)
    let rs ← perAddress env rest
    pure (o.result :: rs)

/-- An environment where every network interaction succeeds positively:
DNS resolves, one MX record, the real RCPT answers 250, the synthetic
catch-all probe is rejected with 550. -/
def envC1 : Env :=
  { dnsLookup := Except.ok ()
    mxLookup := Except.ok [⟨10, "mx.example.com.".toList⟩]
    realDialogue := Except.ok (250, "OK".toList)
    catchAllDialogue := Except.ok (Except.ok (550, "no".toList)) }

/-- The outcome the pipeline returns for a plain personal address under
`envC1`. -/
def oC1 : Outcome := (verify_email envC1 "john@example.com".toList).toOption.getD oDflt

/-- The all-positive environment again, for the status-threshold claim. -/
def envC2 : Env :=
  { dnsLookup := Except.ok ()
    mxLookup := Except.ok [⟨10, "mx.example.com.".toList⟩]
    realDialogue := Except.ok (250, "OK".toList)
    catchAllDialogue := Except.ok (Except.ok (550, "no".toList)) }

/-- The outcome under `envC2`. -/
def oC2 : Outcome := (verify_email envC2 "john@example.com".toList).toOption.getD oDflt

/-- Two MX answer records in response order, most preferred second: the DNS
response carries preference 20 first and preference 10 second. -/
def demoRecs : List MxRecord :=
  [⟨20, "b.example.".toList⟩, ⟨10, "a.example.".toList⟩]

/-- An environment whose MX answer is `demoRecs` and whose probes succeed. -/
def envC6 : Env :=
  { dnsLookup := Except.ok ()
    mxLookup := Except.ok demoRecs
    realDialogue := Except.ok (250, "OK".toList)
    catchAllDialogue := Except.ok (Except.ok (550, "no".toList)) }

/-- The outcome under `envC6`. -/
def oC6 : Outcome := (verify_email envC6 "john@example.com".toList).toOption.getD oDflt

/-- An arbitrary environment for the syntax-failure case (its fields are
never consulted on that path). -/
def envC7a : Env :=
  { dnsLookup := Except.error .timeout
    mxLookup := Except.error .timeout
    realDialogue := Except.error .socketTimeout
    catchAllDialogue := Except.error () }

/-- The outcome for a syntactically invalid address under `envC7a`. -/
def oC7a : Outcome := (verify_email envC7a "bad".toList).toOption.getD oDflt

/-- An environment whose A-record lookup reports a nonexistent domain. -/
def envC7b : Env :=
  { dnsLookup := Except.error .nxdomain
    mxLookup := Except.ok [⟨10, "mx.example.com.".toList⟩]
    realDialogue := Except.ok (250, "OK".toList)
    catchAllDialogue := Except.ok (Except.ok (550, "no".toList)) }

/-- The outcome for a well-formed address under `envC7b`. -/
def oC7b : Outcome := (verify_email envC7b "john@example.com".toList).toOption.getD oDflt

/-- An environment where the real RCPT answers 421 (temporary failure, so
`exists` is UNKNOWN) and the synthetic catch-all probe is accepted with
250, so the domain is detected as catch-all. -/
def envC8 : Env :=
  { dnsLookup := Except.ok ()
    mxLookup := Except.ok [⟨10, "mx.example.com.".toList⟩]
    realDialogue := Except.ok (421, "busy".toList)
    catchAllDialogue := Except.ok (Except.ok (250, "ok".toList)) }

/-- The outcome under `envC8`. -/
def oC8 : Outcome := (verify_email envC8 "john@example.com".toList).toOption.getD oDflt

/-- A per-address environment for batch runs: every address sees the
all-positive network. -/
def envC9 : Str → Env := fun _ =>
  { dnsLookup := Except.ok ()
    mxLookup := Except.ok [⟨10, "mx.example.com.".toList⟩]
    realDialogue := Except.ok (250, "OK".toList)
    catchAllDialogue := Except.ok (Except.ok (550, "no".toList)) }

/-- The all-positive environment once more, for the status-domain claim. -/
def envC10 : Env :=
  { dnsLookup := Except.ok ()
    mxLookup := Except.ok [⟨10, "mx.example.com.".toList⟩]
    realDialogue := Except.ok (250, "OK".toList)
    catchAllDialogue := Except.ok (Except.ok (550, "no".toList)) }

/-- The outcome under `envC10`. -/
def oC10 : Outcome := (verify_email envC10 "john@example.com".toList).toOption.getD oDflt

/-! ### Claim theorems -/

/-- Claim C1 counterexample: under an all-positive network the pipeline
returns score 125, which lies outside the interval 0 to 100; no clamping
is performed on any return path. -/
theorem c1_score_not_clamped :
    (verify_email envC1 "john@example.com".toList).toOption.map (fun o => o.result.score)
        = some 125
      ∧ ¬ ((0 : Int) ≤ 125 ∧ (125 : Int) ≤ 100) :=
  ⟨by decide, by decide⟩

set_option maxHeartbeats 1000000 in
/-- Claim C1 amended: the returned score is an integer but is never clamped;
on every non-raising run it lies between -20 and 125 inclusive, and both
values outside 0 to 100 are attainable. -/
theorem c1_score_range (env : Env) (e : Str) (o : Outcome)
    (h : verify_email env e = Except.ok o) :
    -20 ≤ o.result.score ∧ o.result.score ≤ 125 := by
  simp only [verify_email] at h
  repeat' split at h
  all_goals
    first
      | (injection h with h2; subst h2; dsimp only; omega)
      | exact absurd h (by simp)

/-- Claim C1 amended, witnessed at the all-positive environment. -/
theorem c1_score_range_witness :
    -20 ≤ oC1.result.score ∧ oC1.result.score ≤ 125 :=
  c1_score_range envC1 "john@example.com".toList oC1 (by rfl)

set_option maxHeartbeats 1000000 in
/-- Claim C2: on every run that returns without a hard failure, the final
status is exactly the thresholding of the final score: at least 75 gives
valid, at least 45 but below 75 gives risky, below 45 gives invalid; the
thresholding is the pure function `statusFromScore` of the score alone, so
re-applying it to the same score yields the same status. -/
theorem c2_status_pure_function (env : Env) (e : Str) (o : Outcome)
    (h : verify_email env e = Except.ok o) (hf : o.hardFailure = false) :
    o.result.status = statusFromScore o.result.score ∧
    (75 ≤ o.result.score → o.result.status = "valid".toList) ∧
    (45 ≤ o.result.score ∧ o.result.score < 75 → o.result.status = "risky".toList) ∧
    (o.result.score < 45 → o.result.status = "invalid".toList) := by
  simp only [verify_email] at h
  repeat' split at h
  all_goals
    first
      | (injection h with h2; subst h2; first
          | (dsimp only; decide)
          | (dsimp only at hf; exact absurd hf (by decide)))
      | exact absurd h (by simp)

/-- Claim C2, witnessed at the all-positive environment. -/
theorem c2_status_pure_function_witness :
    oC2.result.status = statusFromScore oC2.result.score ∧
    (75 ≤ oC2.result.score → oC2.result.status = "valid".toList) ∧
    (45 ≤ oC2.result.score ∧ oC2.result.score < 75 → oC2.result.status = "risky".toList) ∧
    (oC2.result.score < 45 → oC2.result.status = "invalid".toList) :=
  c2_status_pure_function envC2 "john@example.com".toList oC2 (by rfl) (by rfl)

/-- Claim C3: for every RCPT reply code the probe classifies exactly as
claimed: 250 and 251 give exists TRUE; 550, 551, 553 and 554 give exists
FALSE with the mailbox-does-not-exist error; 450, 451, 452 and 421 give
exists UNKNOWN with the temporary-failure error; every other code gives
exists UNKNOWN with the uncertain-response-code error. -/
theorem c3_rcpt_code_classification (code : Int) (msg : Str) :
    (verify_smtp (Except.ok (code, msg))).exists_ = claimedRcptExists code ∧
    (verify_smtp (Except.ok (code, msg))).error = claimedRcptError code := by
  simp only [verify_smtp, claimedRcptExists, claimedRcptError]
  split_ifs <;> simp_all

/-- Claim C4: every connection-level failure of the SMTP dialogue yields
exists UNKNOWN with a descriptive error, and never exists FALSE. -/
theorem c4_connection_failure_unknown (exc : SmtpExc) :
    (verify_smtp (Except.error exc)).exists_ = none ∧
    (verify_smtp (Except.error exc)).exists_ ≠ some false ∧
    (verify_smtp (Except.error exc)).error ≠ none := by
  cases exc <;> simp [verify_smtp]

/-- Claim C5: the catch-all detector answers true exactly when the
synthetic probe ran without escaping exception and its dialogue classified
to exists TRUE; every FALSE or UNKNOWN outcome and every escaping failure
yields false. -/
theorem c5_catch_all_fail_closed (p : Except Unit SmtpDialogue) :
    check_catch_all p = true ↔
      ∃ d, p = Except.ok d ∧ (verify_smtp d).exists_ = some true := by
  cases p with
  | error u => simp [check_catch_all]
  | ok d => simp [check_catch_all]

/-- Claim C6 counterexample: for the two-record MX answer `demoRecs`, whose
response order is preference 20 before preference 10, the returned host
list keeps the response order and differs from the preference-sorted list
the claim requires, and the pipeline probes the first returned host, which
is not the most preferred one. -/
theorem c6_mx_hosts_unsorted :
    (check_mx_records (Except.ok demoRecs)).mx_hosts
        = ["b.example".toList, "a.example".toList] ∧
    claimedMxHosts demoRecs = ["a.example".toList, "b.example".toList] ∧
    (check_mx_records (Except.ok demoRecs)).mx_hosts ≠ claimedMxHosts demoRecs ∧
    oC6.events = [NetEvent.dnsQuery, NetEvent.mxQuery,
      NetEvent.smtpProbe "b.example".toList "john@example.com".toList,
      NetEvent.catchAllProbe "b.example".toList] :=
  ⟨by decide, by decide, by decide, by decide⟩

set_option maxHeartbeats 1000000 in
/-- Claim C6 amended: on a successful MX lookup the hosts are returned in
DNS response order with any trailing root-label dot stripped, with no
sorting by preference, and whenever the pipeline performs its SMTP probe
it probes the first host of the response, whatever its preference. -/
theorem c6_mx_response_order :
    (∀ recs : List MxRecord,
        (check_mx_records (Except.ok recs)).mx_hosts
          = recs.map fun r => rstripChar '.' r.exchange) ∧
    (∀ (env : Env) (e : Str) (o : Outcome) (r0 : MxRecord) (rest : List MxRecord) (hst : Str),
        verify_email env e = Except.ok o →
        env.mxLookup = Except.ok (r0 :: rest) →
        NetEvent.smtpProbe hst e ∈ o.events →
        hst = rstripChar '.' r0.exchange) := by
  constructor
  · intro recs
    simp [check_mx_records]
  · intro env e o r0 rest hst h hmx hmem
    simp only [verify_email] at h
    repeat' split at h
    all_goals
      first
        | (injection h with h2; subst h2; simp_all [check_mx_records])
        | exact absurd h (by simp)

/-- Claim C6 amended, witnessed at the two-record answer. -/
theorem c6_mx_response_order_witness :
    ((check_mx_records (Except.ok demoRecs)).mx_hosts
        = demoRecs.map fun r => rstripChar '.' r.exchange) ∧
    "b.example".toList = rstripChar '.' (MxRecord.mk 20 "b.example.".toList).exchange :=
  ⟨c6_mx_response_order.1 demoRecs,
   c6_mx_response_order.2 envC6 "john@example.com".toList oC6
     (MxRecord.mk 20 "b.example.".toList) [MxRecord.mk 10 "a.example.".toList]
     "b.example".toList (by rfl) (by rfl) (by decide)⟩

set_option maxHeartbeats 1000000 in
/-- Claim C7: hard failures short-circuit: a syntactically invalid address
returns status invalid with no network interaction at all, and a
well-formed address whose A-record check fails returns status invalid
after the DNS interaction only, with no MX or SMTP stage running. -/
theorem c7_hard_failure_short_circuit (env : Env) (e : Str) (o : Outcome)
    (h : verify_email env e = Except.ok o) :
    ( validate_syntax e = false → o.result.status = "invalid".toList ∧ o.events = []) ∧
    ( validate_syntax e = true → (check_dns env.dnsLookup).valid = false →
      o.result.status = "invalid".toList ∧ o.events = [NetEvent.dnsQuery]) := by
  simp only [verify_email] at h
  repeat' split at h
  all_goals
    first
      | (injection h with h2; subst h2;
         refine ⟨fun hs => ?_, fun hs hd => ?_⟩ <;> simp_all)
      | exact absurd h (by simp)

/-- Claim C7, witnessed at a malformed address and at a nonexistent
domain. -/
theorem c7_hard_failure_short_circuit_witness :
    (oC7a.result.status = "invalid".toList ∧ oC7a.events = []) ∧
    (oC7b.result.status = "invalid".toList ∧ oC7b.events = [NetEvent.dnsQuery]) :=
  ⟨(c7_hard_failure_short_circuit envC7a "bad".toList oC7a (by rfl)).1 (by decide),
   (c7_hard_failure_short_circuit envC7b "john@example.com".toList oC7b (by rfl)).2
     (by decide) (by decide)⟩

/-- Claim C8 counterexample: with the real probe answering 421 (exists
UNKNOWN) on a catch-all domain, the pipeline adds 5, not the claimed 10,
on top of the catch-all penalty: the final score is 80, not
95 - 20 + 10 = 85. -/
theorem c8_catch_all_unknown_plus5 :
    (verify_email envC8 "john@example.com".toList).toOption.map (fun o => o.result.score)
        = some 80 ∧
    preSmtpScore "john@example.com".toList = 95 ∧
    (80 : Int) ≠ 95 - 20 + 10 :=
  ⟨by decide, by decide, by decide⟩

set_option maxHeartbeats 1000000 in
/-- Claim C8 amended: when the real probe classifies to exists UNKNOWN and
no hard failure occurs, the SMTP block contributes 10 on a non-catch-all
domain but only 5 on a catch-all domain, and the catch-all penalty of 20
is subtracted exactly once. -/
theorem c8_smtp_unknown_scoring (env : Env) (e : Str) (o : Outcome)
    (h : verify_email env e = Except.ok o) (hf : o.hardFailure = false)
    (hu : (verify_smtp env.realDialogue).exists_ = none) :
    o.result.score =
      (if check_catch_all env.catchAllDialogue then preSmtpScore e - 20 + 5
       else preSmtpScore e + 10) := by
  simp only [verify_email] at h
  repeat' split at h
  all_goals
    first
      | (injection h with h2; subst h2; simp_all [preSmtpScore])
      | exact absurd h (by simp)

/-- Claim C8 amended, witnessed at the catch-all environment with a 421
reply. -/
theorem c8_smtp_unknown_scoring_witness :
    oC8.result.score =
      (if check_catch_all envC8.catchAllDialogue
        then preSmtpScore "john@example.com".toList - 20 + 5
        else preSmtpScore "john@example.com".toList + 10) :=
  c8_smtp_unknown_scoring envC8 "john@example.com".toList oC8 (by rfl) (by rfl) (by rfl)

/-- Claim C9 counterexample: a batch of two accepted address strings, the
first of which trims to the empty string, yields one result, not two: the
whitespace-only entry is silently dropped. -/
theorem c9_blank_entry_dropped :
    (verify_emails envC9 ["   ".toList, "john@example.com".toList]).toOption.map List.length
        = some 1 ∧ (1 : Nat) ≠ 2 :=
  ⟨by decide, by decide⟩

/-- Claim C9 amended: for every batch, the loop produces exactly one result
per entry whose trimmed form is nonempty, in input order, following
`perAddress` on the filtered batch; entries trimming to the empty string
are silently dropped without a result. -/
theorem c9_batch_per_address (env : Str → Env) (emails : List Str) :
    verify_emails env emails
      = perAddress env (emails.filter fun e => !(pyStrip e).isEmpty) := by
  induction emails with
  | nil => rfl
  | cons e rest ih =>
    by_cases hc : pyStrip e = []
    · simp only [verify_emails, List.filter_cons]
      rw [if_neg (fun hne => hne hc), if_neg (by simp [hc])]
      exact ih
    · simp only [verify_emails, List.filter_cons]
      rw [if_pos hc, if_pos (by simp [hc])]
      simp only [perAddress]
      rw [ih]
      cases hv : verify_email (env (pyStrip e)) (pyStrip e) with
      | error err => rfl
      | ok o =>
        cases hp : perAddress env (rest.filter fun e => !(pyStrip e).isEmpty) with
        | error err => rfl
        | ok rs => rfl

set_option maxHeartbeats 1000000 in
/-- Claim C10: every outcome the pipeline returns carries status valid,
risky or invalid; the initial unknown status is overwritten on every
return path. -/
theorem c10_status_always_set (env : Env) (e : Str) (o : Outcome)
    (h : verify_email env e = Except.ok o) :
    o.result.status = "valid".toList ∨ o.result.status = "risky".toList ∨
    o.result.status = "invalid".toList := by
  simp only [verify_email] at h
  repeat' split at h
  all_goals
    first
      | (injection h with h2; subst h2; dsimp only; decide)
      | exact absurd h (by simp)

/-- Claim C10, witnessed at the all-positive environment. -/
theorem c10_status_always_set_witness :
    oC10.result.status = "valid".toList ∨ oC10.result.status = "risky".toList ∨
    oC10.result.status = "invalid".toList :=
  c10_status_always_set envC10 "john@example.com".toList oC10 (by rfl)
